import Mathlib

/-!
Shallow embedding of `src/main.py`, a bulk account reporter.

The script drives two HTTP endpoints (a user-lookup GET and a report POST)
through a cookie-authenticated session.  Network traffic, files and the
interactive prompts are modelled as explicit inputs: an `Env` maps each
normalized username to the HTTP result of its lookup and each extracted
user id to the HTTP result of its report POST; `World` additionally fixes
the credential file, the liveness probe's result, the username file and
the three prompt answers.  Decoded JSON bodies are modelled by `JValue`;
a response whose `.json()` call raises is modelled by a `none` body.
Python exceptions that the script does not catch are modelled with
`Except`: `Except.error ()` is an uncaught exception aborting the run.
-/

/-- Decoded JSON value, as produced by Python's `response.json()`.
Numbers are modelled as integers (no claim depends on fractional JSON
numbers); objects are association lists with the keys already unique,
matching a decoded Python `dict`. -/
inductive JValue where
  | null
  | bool (b : Bool)
  | num (n : Int)
  | str (s : String)
  | arr (elems : List JValue)
  | obj (fields : List (String × JValue))

/-- Association-list lookup: Python's `dict.get(key)` (and the membership
test `key in dict`) on a decoded JSON object. -/
def dictGet {α : Type} : List (String × α) → String → Option α
  | [], _ => none
  | (k, v) :: rest, key => if k = key then some v else dictGet rest key

/-- Python truthiness of a decoded JSON value: `None`, `False`, `0`, `""`,
`[]` and `{}` are falsy, everything else is truthy. -/
def pyTruthy : JValue → Bool
  | JValue.null => false
  | JValue.bool b => b
  | JValue.num n => decide (n ≠ 0)
  | JValue.str s => decide (s ≠ "")
  | JValue.arr [] => false
  | JValue.arr (_ :: _) => true
  | JValue.obj [] => false
  | JValue.obj (_ :: _) => true

/-- Python's `x == 0` on a decoded JSON value: true for the integer `0`
and for `False` (which equals `0` in Python), false otherwise. -/
def pyEqZero : JValue → Bool
  | JValue.num n => decide (n = 0)
  | JValue.bool b => decide (b = false)
  | _ => false

/-- Python's subscript `j[key]` with a string key: returns the field of a
dict, raises `KeyError` on a missing key and `TypeError` on a non-dict
value.  Raising is modelled by `Except.error ()`. -/
def pyIndex (j : JValue) (key : String) : Except Unit JValue :=
  match j with
  | JValue.obj fields =>
    match dictGet fields key with
    | some v => Except.ok v
    | none => Except.error ()
  | _ => Except.error ()

/-- An HTTP response: its status code and its decoded JSON body, where
`none` means `response.json()` raises (undecodable body). -/
structure HttpResponse where
  status : Nat
  jsonBody : Option JValue

/-- Result of one `session.get`/`session.post` call: either a response or
a transport-level exception (DNS, timeout, TLS, connection reset). -/
inductive HttpResult where
  | exn
  | resp (r : HttpResponse)

/-- `TikTokMassReporter.check_cookies_valid` (src/main.py lines 44-50):
true exactly when the probe request returns transport status 200; any
raised exception is caught and folded into `False`. -/
def check_cookies_valid (r : HttpResult) : Bool :=
  match r with
  | HttpResult.exn => false
  | HttpResult.resp resp => decide (resp.status = 200)

/-- `TikTokMassReporter.get_user_info` (src/main.py lines 52-66), applied
to the result of the lookup GET for a username: on a 200 response returns
the decoded body; on a non-200 status, a transport exception, or a body
whose decoding raises (all caught by the bare `except`), returns `None`. -/
def get_user_info (r : HttpResult) : Option JValue :=
  match r with
  | HttpResult.exn => none
  | HttpResult.resp resp =>
    if resp.status = 200 then
      match resp.jsonBody with
      | some j => some j
      | none => none
    else none

/-- `TikTokMassReporter.report_account` (src/main.py lines 68-92), applied
to the result of the report POST: on a 200 response with a decoded object
body it returns `result.get('status_code', 0) == 0` — note the default
`0` makes a body *lacking* the `status_code` field count as success.  A
transport exception, a body whose decoding raises, and a non-object body
(whose `.get` raises `AttributeError`) are all caught by the `except` and
yield `False`, as does a non-200 status. -/
def report_account (r : HttpResult) : Bool :=
  match r with
  | HttpResult.exn => false
  | HttpResult.resp resp =>
    if resp.status = 200 then
      match resp.jsonBody with
      | some (JValue.obj fields) =>
        pyEqZero ((dictGet fields "status_code").getD (JValue.num 0))
      | some _ => false
      | none => false
    else false

/-- The whitespace characters stripped by Python's `str.strip()` (ASCII
range). -/
def isPyWhitespaceChar (c : Char) : Bool :=
  c = ' ' || c = '\t' || c = '\n' || c = '\x0d' || c = '\x0b' || c = '\x0c'

/-- Python's `str.strip()` on a character list: drop whitespace from both
ends. -/
def stripChars (cs : List Char) : List Char :=
  ((cs.dropWhile isPyWhitespaceChar).reverse.dropWhile isPyWhitespaceChar).reverse

/-- Python's `str.strip()`. -/
def pyStrip (s : String) : String := String.mk (stripChars s.data)

/-- The per-handle normalization `username.strip().replace('@', '')`
(src/main.py line 110): strip surrounding whitespace, then remove every
occurrence of the character `@` (Python's `replace` replaces all
occurrences, not only a leading one). -/
def normalize_username (s : String) : String :=
  String.mk ((stripChars s.data).filter (fun c => !(c = '@')))

/-- Python's `str.lower()` (ASCII range). -/
def pyLower (s : String) : String := String.mk (s.data.map Char.toLower)

/-- The network environment of one run: the lookup GET result for each
normalized username, and the report POST result for each extracted user
id and reason code. -/
structure Env where
  lookup : String → HttpResult
  report : JValue → Int → HttpResult

/-- The orchestrator's observable state: the three printed counters of
`process_accounts`, plus instrumentation recording how many lookup GETs
and report POSTs were issued and the argument of every `time.sleep`
call. -/
structure RunState where
  success_count : Nat
  fail_count : Nat
  total : Nat
  lookups : Nat
  reports : Nat
  sleeps : List Rat
deriving DecidableEq

/-- State at the top of `process_accounts`: counters zero, `total` set to
`len(usernames)` (src/main.py lines 102-104), no requests, no sleeps. -/
def initState (total : Nat) : RunState :=
  ⟨0, 0, total, 0, 0, []⟩

/-- The user-id extraction of `process_accounts` (src/main.py lines
118-123) applied to a decoded non-`None` lookup body `user_info`:
the guard `not user_info or not user_info.get('userInfo')` sends falsy
bodies and missing/falsy `userInfo` fields to the not-found branch
(`Except.ok none`); otherwise `user_info['userInfo']['user']['id']` is
read with unchecked subscripts, so a truthy non-dict body (whose `.get`
raises `AttributeError`) or a truthy `userInfo` lacking a `user` dict
with an `id` raises — modelled by `Except.error ()`. -/
def extract_user_id (userInfoJson : JValue) : Except Unit (Option JValue) :=
  if pyTruthy userInfoJson = false then Except.ok none
  else
    match userInfoJson with
    | JValue.obj fields =>
      match dictGet fields "userInfo" with
      | none => Except.ok none
      | some ui =>
        if pyTruthy ui = false then Except.ok none
        else
          match pyIndex ui "user" with
          | Except.error e => Except.error e
          | Except.ok userObj =>
            match pyIndex userObj "id" with
            | Except.error e => Except.error e
            | Except.ok userId => Except.ok (some userId)
    | _ => Except.error ()

/-- One iteration of the `for i, username in enumerate(usernames, 1)` loop
of `process_accounts` (src/main.py lines 109-137): normalize; skip if
empty; look the user up (`fail_count += 1; continue` on not-found, which
skips the delay); otherwise submit the report, tally success or failure,
and `time.sleep(delay)` only when `i < total`.  `i` is the 1-based index
over the full input list and `total` its full length. -/
def processOne (env : Env) (reason : Int) (delay : Rat) (total i : Nat)
    (username : String) (st : RunState) : Except Unit RunState :=
  let u := normalize_username username
  if u = "" then Except.ok st
  else
    let st1 := { st with lookups := st.lookups + 1 }
    match get_user_info (env.lookup u) with
    | none => Except.ok { st1 with fail_count := st1.fail_count + 1 }
    | some userInfoJson =>
      match extract_user_id userInfoJson with
      | Except.error e => Except.error e
      | Except.ok none => Except.ok { st1 with fail_count := st1.fail_count + 1 }
      | Except.ok (some userId) =>
        let st2 := { st1 with reports := st1.reports + 1 }
        let st3 :=
          if report_account (env.report userId reason) then
            { st2 with success_count := st2.success_count + 1 }
          else
            { st2 with fail_count := st2.fail_count + 1 }
        if i < total then
          Except.ok { st3 with sleeps := st3.sleeps ++ [delay] }
        else
          Except.ok st3

/-- The loop of `process_accounts` from 1-based index `i` over the
remaining usernames, threading the state; an `Except.error` from an
iteration is the uncaught Python exception aborting the whole run. -/
def processList (env : Env) (reason : Int) (delay : Rat) (total : Nat) :
    Nat → List String → RunState → Except Unit RunState
  | _, [], st => Except.ok st
  | i, username :: rest, st =>
    match processOne env reason delay total i username st with
    | Except.error e => Except.error e
    | Except.ok st' => processList env reason delay total (i + 1) rest st'

/-- `TikTokMassReporter.process_accounts` (src/main.py lines 94-142): run
the loop over the whole list with `total = len(usernames)` and the
counters starting at zero; the final state carries the three counts the
summary prints (lines 139-142). -/
def process_accounts (env : Env) (reason : Int) (delay : Rat)
    (usernames : List String) : Except Unit RunState :=
  processList env reason delay usernames.length 1 usernames
    (initState usernames.length)

/-- State of the credential file: absent (`FileNotFoundError`), present
but with content on which `json.load` raises, or present with a decoded
JSON value. -/
inductive CookieFile where
  | missing
  | malformed
  | parsed (j : JValue)

/-- `load_cookies` (src/main.py lines 144-158): a missing file and a
body on which `json.load` raises both end in `sys.exit(1)`; a decoded
value that is not a JSON object raises `ValueError`, which the generic
`except` also converts to `sys.exit(1)`; a decoded object is returned.
`Except.error c` models `sys.exit(c)`. -/
def load_cookies : CookieFile → Except Nat (List (String × JValue))
  | CookieFile.missing => Except.error 1
  | CookieFile.malformed => Except.error 1
  | CookieFile.parsed j =>
    match j with
    | JValue.obj fields => Except.ok fields
    | _ => Except.error 1

/-- State of the username file: absent (`FileNotFoundError`), unreadable
(any other exception while reading), or readable with a list of lines. -/
inductive UserFile where
  | missing
  | unreadable
  | lines (ls : List String)

/-- `load_usernames` (src/main.py lines 160-171): a missing or unreadable
file ends in `sys.exit(1)`; otherwise the comprehension
`[line.strip() for line in f.readlines() if line.strip()]` keeps the
stripped form of every line whose stripped form is non-empty. -/
def load_usernames : UserFile → Except Nat (List String)
  | UserFile.missing => Except.error 1
  | UserFile.unreadable => Except.error 1
  | UserFile.lines ls =>
    Except.ok ((ls.map pyStrip).filter (fun line => !(line = "")))

/-- The menu of `get_report_reason` (src/main.py lines 175-184): the
eight accepted inputs and their reason codes. -/
def reasons : List (String × Int) :=
  [("1", 1001), ("2", 1002), ("3", 1003), ("4", 1004),
   ("5", 1005), ("6", 1006), ("7", 1007), ("8", 1008)]

/-- One round of the prompt of `get_report_reason` (src/main.py line
197-199): `input(...).strip() or '4'` defaults the stripped-empty answer
to `'4'`; the result is accepted only when it is a key of the menu. -/
def parseReasonChoice (s : String) : Option Int :=
  let choice := if pyStrip s = "" then "4" else pyStrip s
  dictGet reasons choice

/-- `get_report_reason` (src/main.py lines 173-200) over the stream of
prompt answers: return the code of the first accepted answer, re-prompt
(recurse on the rest of the stream) on a rejected one, and `none` when
the stream is exhausted (the real loop would keep asking). -/
def get_report_reason : List String → Option Int
  | [] => none
  | ans :: rest =>
    match parseReasonChoice ans with
    | some code => some code
    | none => get_report_reason rest

/-- Value of a digit string, most significant first. -/
def digitsVal (cs : List Char) : Nat :=
  cs.foldl (fun acc c => acc * 10 + (c.toNat - '0'.toNat)) 0

/-- Model of Python's builtin `float(s)` on plain decimal literals:
surrounding whitespace, an optional sign, then digits with an optional
fractional part.  `none` models `float` raising `ValueError`.  (The
builtin also accepts exponents and `inf`/`nan`; no claim depends on
those, and every string this parser accepts the builtin accepts with the
same value.) -/
def parseFloat? (s : String) : Option Rat :=
  let cs := stripChars s.data
  let signAndRest : Bool × List Char :=
    match cs with
    | '-' :: rest => (true, rest)
    | '+' :: rest => (false, rest)
    | _ => (false, cs)
  let signed : Rat → Rat := fun q => if signAndRest.1 then -q else q
  let intPart := signAndRest.2.takeWhile Char.isDigit
  let tail := signAndRest.2.dropWhile Char.isDigit
  match tail with
  | [] =>
    if intPart = [] then none
    else some (signed (digitsVal intPart : Rat))
  | '.' :: fracPart =>
    if fracPart.all Char.isDigit && !(intPart = [] && fracPart = []) then
      some (signed
        ((digitsVal (intPart ++ fracPart) : Rat) / ((10 : Rat) ^ fracPart.length)))
    else none
  | _ => none

/-- The delay prompt of `main` (src/main.py lines 223-227):
`float(input(...) or "10")`, with the `except ValueError` fallback to
`10.0`.  An empty answer falls back to the literal `"10"`; a non-empty
answer is passed to `float` and used unvalidated — in particular a
negative value is accepted. -/
def readDelay (s : String) : Rat :=
  match parseFloat? (if s = "" then "10" else s) with
  | some d => d
  | none => 10

/-- Precondition of Python's `time.sleep(secs)`: `secs` must be
non-negative (a negative argument raises `ValueError`). -/
def sleepPre (d : Rat) : Prop := 0 ≤ d

/-- The whole external world one invocation of `main` sees: the two input
files, the liveness probe's network result, the three prompt answers and
the per-run network environment. -/
structure World where
  cookieFile : CookieFile
  livenessResp : HttpResult
  userFile : UserFile
  reasonInputs : List String
  delayInput : String
  confirmInput : String
  lookup : String → HttpResult
  report : JValue → Int → HttpResult

instance : DecidableEq (Except Unit RunState) := fun a b =>
  match a, b with
  | Except.error x, Except.error y =>
    if h : x = y then Decidable.isTrue (congrArg Except.error h)
    else Decidable.isFalse (fun hh => h (Except.error.inj hh))
  | Except.ok x, Except.ok y =>
    if h : x = y then Decidable.isTrue (congrArg Except.ok h)
    else Decidable.isFalse (fun hh => h (Except.ok.inj hh))
  | Except.error _, Except.ok _ => Decidable.isFalse (fun hh => Except.noConfusion hh)
  | Except.ok _, Except.error _ => Decidable.isFalse (fun hh => Except.noConfusion hh)

/-- Observable outcome of `main`: the process exit code (`none` when the
interpreter aborts on an exception the script does not catch, including
an exhausted prompt stream), and the result of `process_accounts` when it
was invoked (`none` exactly when the pipeline never ran, so no resolve or
submit request was issued by it). -/
structure MainResult where
  exitCode : Option Nat
  reported : Option (Except Unit RunState)
deriving DecidableEq

/-- `main` (src/main.py lines 202-237): load the cookies (fatal exit on
failure), probe liveness (exit 1 when false, before any resolve/submit),
load the usernames (fatal exit on failure, exit 1 on an empty list), read
the reason code and the delay, ask for confirmation (`input(...).lower()`
compared with `'y'`; any other answer exits 0), then run
`process_accounts`; falling off the end of `main` is exit 0.  (Named
`main_fn` because Lean reserves `main` for an executable entry point.) -/
def main_fn (w : World) : MainResult :=
  match load_cookies w.cookieFile with
  | Except.error c => ⟨some c, none⟩
  | Except.ok _ =>
    if check_cookies_valid w.livenessResp = false then ⟨some 1, none⟩
    else
      match load_usernames w.userFile with
      | Except.error c => ⟨some c, none⟩
      | Except.ok usernames =>
        if usernames = [] then ⟨some 1, none⟩
        else
          match get_report_reason w.reasonInputs with
          | none => ⟨none, none⟩
          | some reason =>
            let delay := readDelay w.delayInput
            if !(pyLower w.confirmInput = "y") then ⟨some 0, none⟩
            else
              match process_accounts ⟨w.lookup, w.report⟩ reason delay
                  usernames with
              | Except.ok st => ⟨some 0, some (Except.ok st)⟩
              | Except.error e => ⟨none, some (Except.error e)⟩

/-- The amended claim C1's success condition, written from its words:
the transport status is success (200) and the decoded body is an object
whose `status_code` field, taken as the no-error sentinel `0` when
absent, equals `0`; every other combination is failure. -/
def report_success_spec (r : HttpResult) : Bool :=
  match r with
  | HttpResult.exn => false
  | HttpResult.resp resp =>
    decide (resp.status = 200) &&
      (match resp.jsonBody with
       | some (JValue.obj fields) =>
         (match dictGet fields "status_code" with
          | none => true
          | some v => pyEqZero v)
       | _ => false)

/-! ### Concrete environments and worlds used by witnesses and counterexamples -/

/-- Lookup body of a user that resolves cleanly: a truthy `userInfo`
holding a `user` object with an `id`. -/
def goodUserBody : JValue :=
  JValue.obj [("userInfo",
    JValue.obj [("user", JValue.obj [("id", JValue.str "123")])])]

/-- Environment where every lookup resolves to `goodUserBody` and every
report POST returns 200 with `status_code = 0`. -/
def envOk : Env :=
  ⟨fun _ => HttpResult.resp ⟨200, some goodUserBody⟩,
   fun _ _ => HttpResult.resp ⟨200, some (JValue.obj [("status_code", JValue.num 0)])⟩⟩

/-- Environment where every network request raises a transport error. -/
def envExn : Env :=
  ⟨fun _ => HttpResult.exn, fun _ _ => HttpResult.exn⟩

/-- Environment where every lookup returns 200 with a well-formed body
whose truthy `userInfo` object has no `user` field. -/
def envNoId : Env :=
  ⟨fun _ => HttpResult.resp
      ⟨200, some (JValue.obj [("userInfo", JValue.obj [("nickname", JValue.str "x")])])⟩,
   fun _ _ => HttpResult.exn⟩

/-- A world whose startup all succeeds: parsed cookie object, live
session, two usernames, reason answer `"4"`, delay answer `"-5"`,
confirmation `"y"`, and `envOk` networking. -/
def wBase : World :=
  ⟨CookieFile.parsed (JValue.obj []), HttpResult.resp ⟨200, none⟩,
   UserFile.lines ["a", "b"], ["4"], "-5", "y", envOk.lookup, envOk.report⟩

/-! ### Helper lemmas about the orchestrator loop -/


lemma processOne_skip (env : Env) (reason : Int) (delay : Rat) (total i : Nat)
    (u : String) (st : RunState) (hu : normalize_username u = "") :
    processOne env reason delay total i u st = Except.ok st := by
  simp [processOne, hu]

lemma processOne_ok_shape (env : Env) (reason : Int) (delay : Rat) (total i : Nat)
    (u : String) (st st' : RunState)
    (h : processOne env reason delay total i u st = Except.ok st') :
    (normalize_username u = "" ∧ st' = st)
    ∨ (¬ normalize_username u = "" ∧
        st' = { st with lookups := st.lookups + 1, fail_count := st.fail_count + 1 })
    ∨ (¬ normalize_username u = "" ∧
        st'.total = st.total ∧
        st'.lookups = st.lookups + 1 ∧
        st'.reports = st.reports + 1 ∧
        (st'.success_count = st.success_count + 1 ∧ st'.fail_count = st.fail_count
          ∨ st'.success_count = st.success_count ∧ st'.fail_count = st.fail_count + 1) ∧
        st'.sleeps = (if i < total then st.sleeps ++ [delay] else st.sleeps)) := by
  simp only [processOne] at h
  split at h
  · rename_i hu
    cases h
    exact Or.inl ⟨hu, rfl⟩
  · rename_i hu
    split at h
    · cases h
      exact Or.inr (Or.inl ⟨hu, rfl⟩)
    · rename_i j hj
      split at h
      · exact Except.noConfusion h
      · cases h
        exact Or.inr (Or.inl ⟨hu, rfl⟩)
      · rename_i userId huid
        split at h
        · rename_i hi
          cases h
          refine Or.inr (Or.inr ⟨hu, ?_, ?_, ?_, ?_, ?_⟩) <;>
            by_cases hr : report_account (env.report userId reason) = true <;>
            simp [hr, hi]
        · rename_i hi
          cases h
          refine Or.inr (Or.inr ⟨hu, ?_, ?_, ?_, ?_, ?_⟩) <;>
            by_cases hr : report_account (env.report userId reason) = true <;>
            simp [hr, hi]

lemma processOne_ok_counts (env : Env) (reason : Int) (delay : Rat) (total i : Nat)
    (u : String) (st st' : RunState)
    (h : processOne env reason delay total i u st = Except.ok st') :
    st'.total = st.total ∧
      st'.success_count + st'.fail_count
        = st.success_count + st.fail_count
            + (if normalize_username u = "" then 0 else 1) := by
  rcases processOne_ok_shape env reason delay total i u st st' h with
    ⟨hu, rfl⟩ | ⟨hu, rfl⟩ | ⟨hu, ht, _, _, hc, _⟩
  · simp [hu]
  · constructor
    · simp
    · simp [hu]
      omega
  · rcases hc with ⟨h1, h2⟩ | ⟨h1, h2⟩ <;> simp [hu, ht, h1, h2] <;> omega

lemma processOne_ok_sleeps (env : Env) (reason : Int) (delay : Rat) (total i : Nat)
    (u : String) (st st' : RunState)
    (h : processOne env reason delay total i u st = Except.ok st') :
    (st'.sleeps = st.sleeps ++ [delay] ∨ st'.sleeps = st.sleeps)
    ∧ (st'.sleeps = st.sleeps ++ [delay]
        ↔ (i < total ∧ st'.reports = st.reports + 1)) := by
  have hne : ¬ st.sleeps = st.sleeps ++ [delay] := by
    intro hx
    have := congrArg List.length hx
    simp at this
  rcases processOne_ok_shape env reason delay total i u st st' h with
    ⟨hu, rfl⟩ | ⟨hu, rfl⟩ | ⟨hu, ht, hl, hrp, hc, hs⟩
  · constructor
    · exact Or.inr rfl
    · constructor
      · intro hx; exact absurd hx hne
      · rintro ⟨-, hx⟩; omega
  · constructor
    · exact Or.inr rfl
    · constructor
      · intro hx; exact absurd hx hne
      · rintro ⟨-, hx⟩; simp at hx
  · by_cases hi : i < total
    · rw [hs, if_pos hi]
      exact ⟨Or.inl rfl, by simp [hi, hrp]⟩
    · rw [hs, if_neg hi]
      constructor
      · exact Or.inr rfl
      · constructor
        · intro hx; exact absurd hx hne
        · rintro ⟨hx, -⟩; exact absurd hx hi

lemma processList_ok_counts (env : Env) (reason : Int) (delay : Rat) (total : Nat) :
    ∀ (vs : List String) (i : Nat) (st st' : RunState),
      processList env reason delay total i vs st = Except.ok st' →
      st'.total = st.total ∧
        st'.success_count + st'.fail_count
          = st.success_count + st.fail_count
              + (vs.filter (fun u => !(normalize_username u = ""))).length
  | [], i, st, st', h => by
    cases h
    simp
  | v :: rest, i, st, st', h => by
    simp only [processList] at h
    split at h
    · exact Except.noConfusion h
    · rename_i stm hm
      have h1 := processOne_ok_counts env reason delay total i v st stm hm
      have h2 := processList_ok_counts env reason delay total rest (i + 1) stm st' h
      by_cases hu : normalize_username v = "" <;>
        simp [hu, List.filter] at h1 h2 ⊢ <;> omega

lemma length_filter_add_length_filter_not {α : Type} (p : α → Bool) :
    ∀ l : List α, (l.filter p).length + (l.filter (fun a => !(p a))).length = l.length
  | [] => by simp
  | a :: l => by
    have ih := length_filter_add_length_filter_not p l
    by_cases hp : p a <;> simp [List.filter_cons, hp] <;> omega

lemma processOne_resolve_fail (env : Env) (reason : Int) (delay : Rat) (total i : Nat)
    (u : String) (st : RunState)
    (hu : ¬ normalize_username u = "")
    (hg : get_user_info (env.lookup (normalize_username u)) = none) :
    processOne env reason delay total i u st
      = Except.ok { st with lookups := st.lookups + 1,
                            fail_count := st.fail_count + 1 } := by
  simp [processOne, hu, hg]

lemma processOne_extract_err (env : Env) (reason : Int) (delay : Rat) (total i : Nat)
    (u : String) (st : RunState) (j : JValue)
    (hu : ¬ normalize_username u = "")
    (hg : get_user_info (env.lookup (normalize_username u)) = some j)
    (he : extract_user_id j = Except.error ()) :
    processOne env reason delay total i u st = Except.error () := by
  simp [processOne, hu, hg, he]

lemma dictGet_mem {α : Type} : ∀ (l : List (String × α)) (k : String) (v : α),
    dictGet l k = some v → v ∈ l.map Prod.snd
  | [], _, _, h => by simp [dictGet] at h
  | (k', v') :: rest, k, v, h => by
    simp only [dictGet] at h
    by_cases hk : k' = k
    · rw [if_pos hk] at h
      cases h
      simp
    · rw [if_neg hk] at h
      simp only [List.map_cons, List.mem_cons]
      exact Or.inr (dictGet_mem rest k v h)

lemma load_cookies_error_code : ∀ (cf : CookieFile) (c : Nat),
    load_cookies cf = Except.error c → c = 1 := by
  intro cf c h
  cases cf with
  | missing => cases h; rfl
  | malformed => cases h; rfl
  | parsed j => cases j <;> simp [load_cookies] at h <;> omega

lemma load_usernames_error_code : ∀ (uf : UserFile) (c : Nat),
    load_usernames uf = Except.error c → c = 1 := by
  intro uf c h
  cases uf with
  | missing => cases h; rfl
  | unreadable => cases h; rfl
  | lines ls => simp [load_usernames] at h

/-! ### Claims -/

/-- Claim C1, counterexample: a 200 report response whose decoded object
body *lacks* the `status_code` field is classified as Success by
`report_account` (the `.get('status_code', 0)` default supplies the
no-error sentinel), not as Failure as the claim states. -/
theorem C1_counterexample :
    report_account (HttpResult.resp ⟨200, some (JValue.obj [("other", JValue.num 1)])⟩) = true
    ∧ dictGet [("other", JValue.num 1)] "status_code" = none :=
  ⟨rfl, rfl⟩

/-- Claim C1 (amended): `report_account` returns Success iff the
transport status is 200 and the decoded body is an object whose
`status_code` field, *taken as the sentinel `0` when absent*, equals `0`
under Python equality; in particular a 200 object body lacking the field
yields Success, while a transport error, a non-success status, an
undecodable or non-object body, or a present non-zero field yields
Failure. -/
theorem C1_submit_success_characterization :
    (∀ r, report_account r = report_success_spec r)
    ∧ report_account HttpResult.exn = false
    ∧ (∀ resp, ¬ resp.status = 200 → report_account (HttpResult.resp resp) = false)
    ∧ (∀ status, report_account (HttpResult.resp ⟨status, none⟩) = false)
    ∧ (∀ fields v, dictGet fields "status_code" = some v → pyEqZero v = false →
        report_account (HttpResult.resp ⟨200, some (JValue.obj fields)⟩) = false) := by
  refine ⟨?_, rfl, ?_, ?_, ?_⟩
  · intro r
    cases r with
    | exn => rfl
    | resp resp =>
      rcases resp with ⟨status, body⟩
      by_cases hs : status = 200
      · subst hs
        rcases body with _ | j
        · rfl
        · cases j <;> simp [report_account, report_success_spec]
          rename_i fields
          rcases hd : dictGet fields "status_code" with _ | v <;> simp [hd]
          rfl
      · simp [report_account, report_success_spec, hs]
  · intro resp hs
    rcases resp with ⟨status, body⟩
    simp [report_account, hs]
  · intro status
    by_cases hs : status = 200 <;> simp [report_account, hs]
  · intro fields v hd hv
    simp [report_account, hd, hv]

/-- Witness for C1: a present non-zero `status_code` is Failure. -/
theorem C1_witness :
    report_account
      (HttpResult.resp ⟨200, some (JValue.obj [("status_code", JValue.num 7)])⟩) = false :=
  C1_submit_success_characterization.2.2.2.2 [("status_code", JValue.num 7)]
    (JValue.num 7) rfl rfl

/-- Claim C2, counterexample: with a 200 lookup response whose body is
the well-formed object `{"userInfo": {"nickname": "x"}}` — a truthy
`userInfo` lacking the `user`/`id` substructure — the run does not tally
a NotFound failure: the unchecked access `user_info['userInfo']['user']`
raises `KeyError` and the whole run aborts (`Except.error ()`), contrary
to the claim that all such shapes collapse to NotFound without aborting. -/
theorem C2_counterexample :
    process_accounts envNoId 1004 10 ["bob"] = Except.error () := rfl

/-- Claim C2 (amended): the resolve call `get_user_info` itself never
raises and returns `None` exactly on a transport error, a non-200
status, or an undecodable body; when it returns `None`, the orchestrator
tallies a failure without issuing a report POST and without aborting.
But when the 200 body decodes to a value on which the orchestrator's
unchecked extraction raises (a truthy non-object body, or a truthy
`userInfo` without a `user` object carrying an `id`), the run aborts. -/
theorem C2_resolver_failure_modes :
    (get_user_info HttpResult.exn = none)
    ∧ (∀ status body,
        get_user_info (HttpResult.resp ⟨status, body⟩) = none
          ↔ (¬ status = 200 ∨ body = none))
    ∧ (∀ env reason delay total i u st, ¬ normalize_username u = "" →
        get_user_info (env.lookup (normalize_username u)) = none →
        processOne env reason delay total i u st
          = Except.ok { st with lookups := st.lookups + 1,
                                fail_count := st.fail_count + 1 })
    ∧ (∀ env reason delay total i u st j, ¬ normalize_username u = "" →
        get_user_info (env.lookup (normalize_username u)) = some j →
        extract_user_id j = Except.error () →
        processOne env reason delay total i u st = Except.error ()) := by
  refine ⟨rfl, ?_, ?_, ?_⟩
  · intro status body
    by_cases hs : status = 200
    · subst hs
      rcases body with _ | j <;> simp [get_user_info]
    · simp [get_user_info, hs]
  · intro env reason delay total i u st hu hg
    exact processOne_resolve_fail env reason delay total i u st hu hg
  · intro env reason delay total i u st j hu hg he
    exact processOne_extract_err env reason delay total i u st j hu hg he

/-- Witness for C2: a transport error on the lookup is tallied as one
failure, with one lookup issued, no report POST, and no abort. -/
theorem C2_witness :
    processOne envExn 1004 10 3 1 "bob" (initState 3)
      = Except.ok ⟨0, 1, 3, 1, 0, []⟩ :=
  C2_resolver_failure_modes.2.2.1 envExn 1004 10 3 1 "bob" (initState 3)
    (by decide) rfl

/-- Claim C3, counterexample: for the input list `["@"]` the printed
`total` is `len(usernames) = 1` — it counts the entry even though it
normalizes to empty and is skipped — while the number of handles that are
non-empty after normalization is `0`, so the claimed equality fails. -/
theorem C3_counterexample :
    process_accounts envExn 1004 10 ["@"] = Except.ok ⟨0, 0, 1, 0, 0, []⟩
    ∧ ((["@"] : List String).filter (fun u => !(normalize_username u = ""))).length = 0
    ∧ ¬ ((⟨0, 0, 1, 0, 0, []⟩ : RunState).total
          = ((["@"] : List String).filter (fun u => !(normalize_username u = ""))).length) := by
  refine ⟨by decide, by decide, by decide⟩

/-- Claim C3 (amended): the printed `total` is the length of the full
input list, entries normalizing to empty included, while
`success_count + fail_count` equals the number of entries that are
non-empty after normalization; the two printed quantities agree exactly
when no entry normalizes to empty (so for such lists of length N both
equal N). -/
theorem C3_totals :
    ∀ env reason delay usernames st',
      process_accounts env reason delay usernames = Except.ok st' →
      st'.total = usernames.length
      ∧ st'.success_count + st'.fail_count
          = (usernames.filter (fun u => !(normalize_username u = ""))).length := by
  intro env reason delay usernames st' h
  have hc := processList_ok_counts env reason delay usernames.length usernames 1
    (initState usernames.length) st' h
  simpa [initState] using hc

/-- Witness for C3: a completed two-entry run, one entry skipped. -/
theorem C3_witness :
    (⟨1, 0, 2, 1, 1, [10]⟩ : RunState).total = (["a", " @ "] : List String).length
    ∧ (⟨1, 0, 2, 1, 1, [10]⟩ : RunState).success_count
        + (⟨1, 0, 2, 1, 1, [10]⟩ : RunState).fail_count
        = ((["a", " @ "] : List String).filter
            (fun u => !(normalize_username u = ""))).length :=
  C3_totals envOk 1004 10 ["a", " @ "] ⟨1, 0, 2, 1, 1, [10]⟩ (by decide)

/-- Claim C4, counterexample: for `["a", "@"]` with a resolving and
successfully reporting environment there is `N_nonEmpty = 1` non-empty
handle, so the claim predicts `0` delay invocations; the code invokes the
delay once (after `"a"`, because its 1-based index `1` is less than the
full list length `2`), i.e. after the last non-empty handle. -/
theorem C4_counterexample :
    process_accounts envOk 1004 10 ["a", "@"] = Except.ok ⟨1, 0, 2, 1, 1, [10]⟩
    ∧ ((["a", "@"] : List String).filter (fun u => !(normalize_username u = ""))).length = 1
    ∧ ¬ ((⟨1, 0, 2, 1, 1, [10]⟩ : RunState).sleeps.length = 1 - 1) := by
  refine ⟨by decide, by decide, by decide⟩

/-- Claim C4 (amended): in each loop iteration that completes without
raising, the delay is invoked exactly once iff the iteration reached the
submit stage (it issued a report POST) *and* its 1-based index over the
full input list is strictly below the full list length; consequently a
skipped-empty or resolve-failed handle advances with no delay, no delay
follows the final input entry, but a delay can follow the last non-empty
handle when empty entries trail it, and the total delay count is not in
general `N_nonEmpty - 1`. -/
theorem C4_delay_characterization :
    ∀ env reason delay total i u st st',
      processOne env reason delay total i u st = Except.ok st' →
      (st'.sleeps = st.sleeps ++ [delay] ∨ st'.sleeps = st.sleeps)
      ∧ (st'.sleeps = st.sleeps ++ [delay]
          ↔ (i < total ∧ st'.reports = st.reports + 1))
      ∧ (st'.reports = st.reports → st'.sleeps = st.sleeps) := by
  intro env reason delay total i u st st' h
  have hs := processOne_ok_sleeps env reason delay total i u st st' h
  refine ⟨hs.1, hs.2, ?_⟩
  intro hr
  rcases hs.1 with hch | hun
  · have := (hs.2.mp hch).2
    omega
  · exact hun

/-- Witness for C4: the first of two resolving handles sleeps once. -/
theorem C4_witness :
    ((⟨1, 0, 2, 1, 1, [10]⟩ : RunState).sleeps = (initState 2).sleeps ++ [10]
      ∨ (⟨1, 0, 2, 1, 1, [10]⟩ : RunState).sleeps = (initState 2).sleeps)
    ∧ ((⟨1, 0, 2, 1, 1, [10]⟩ : RunState).sleeps = (initState 2).sleeps ++ [10]
        ↔ (1 < 2 ∧ (⟨1, 0, 2, 1, 1, [10]⟩ : RunState).reports = (initState 2).reports + 1))
    ∧ ((⟨1, 0, 2, 1, 1, [10]⟩ : RunState).reports = (initState 2).reports
        → (⟨1, 0, 2, 1, 1, [10]⟩ : RunState).sleeps = (initState 2).sleeps) :=
  C4_delay_characterization envOk 1004 10 2 1 "a" (initState 2)
    ⟨1, 0, 2, 1, 1, [10]⟩ (by decide)

/-- Environment where every lookup returns 200 with the truthy non-object
body `7`, on which the orchestrator's `user_info.get('userInfo')` raises
`AttributeError`. -/
def envNonDict : Env :=
  ⟨fun _ => HttpResult.resp ⟨200, some (JValue.num 7)⟩,
   fun _ _ => HttpResult.exn⟩

/-- Claim C5, counterexample: `"carol"` is non-empty after normalization,
yet its run aborts with an uncaught exception (the 200 lookup body is the
truthy non-object `7`, so `user_info.get` raises) before any tally; so
the tally is *not* mutated exactly once per non-empty handle throughout
every run, and the aborted run never reaches a completion state at which
`success + fail = total - skipped` holds. -/
theorem C5_counterexample :
    ¬ normalize_username "carol" = ""
    ∧ process_accounts envNonDict 1004 10 ["carol"] = Except.error () :=
  ⟨by decide, rfl⟩

/-- Claim C5 (amended): at every step (every prefix of the loop that has
completed without raising) `success_count + fail_count ≤ total`; when the
whole run completes without raising, `success_count + fail_count` equals
`total` minus the number of entries normalizing to empty; and every
non-raising iteration mutates the tally exactly once when its handle is
non-empty and not at all when it is empty — but an iteration aborted by
the uncaught extraction error mutates no tally and ends the run. -/
theorem C5_tally_discipline :
    (∀ env reason delay (usernames : List String) k st',
      processList env reason delay usernames.length 1 (usernames.take k)
          (initState usernames.length) = Except.ok st' →
      st'.success_count + st'.fail_count ≤ st'.total)
    ∧ (∀ env reason delay (usernames : List String) st',
        process_accounts env reason delay usernames = Except.ok st' →
        st'.success_count + st'.fail_count
          = st'.total - (usernames.filter (fun u => normalize_username u = "")).length)
    ∧ (∀ env reason delay total i u st st',
        processOne env reason delay total i u st = Except.ok st' →
        (normalize_username u = "" → st' = st)
        ∧ (¬ normalize_username u = "" →
            st'.success_count + st'.fail_count
              = st.success_count + st.fail_count + 1)) := by
  refine ⟨?_, ?_, ?_⟩
  · intro env reason delay usernames k st' h
    have hc := processList_ok_counts env reason delay usernames.length
      (usernames.take k) 1 (initState usernames.length) st' h
    have hf : ((usernames.take k).filter
        (fun u => !(normalize_username u = ""))).length ≤ usernames.length := by
      calc ((usernames.take k).filter (fun u => !(normalize_username u = ""))).length
          ≤ (usernames.take k).length := List.length_filter_le _ _
        _ ≤ usernames.length := by
            rw [List.length_take]
            omega
    rcases hc with ⟨ht, hsum⟩
    rw [ht]
    simp only [initState] at hsum ht ⊢
    omega
  · intro env reason delay usernames st' h
    have hc := processList_ok_counts env reason delay usernames.length usernames 1
      (initState usernames.length) st' h
    have hsplit := length_filter_add_length_filter_not
      (fun u => normalize_username u = "") usernames
    rcases hc with ⟨ht, hsum⟩
    simp only [initState] at ht hsum
    rw [ht]
    omega
  · intro env reason delay total i u st st' h
    constructor
    · intro hu
      have hs := processOne_skip env reason delay total i u st hu
      rw [hs] at h
      exact (Except.ok.inj h).symm
    · intro hu
      have hc := processOne_ok_counts env reason delay total i u st st' h
      rcases hc with ⟨-, hsum⟩
      rw [if_neg hu] at hsum
      exact hsum

/-- Witness for C5: a completed one-entry prefix respects the bound. -/
theorem C5_witness :
    (⟨0, 1, 1, 1, 0, []⟩ : RunState).success_count
        + (⟨0, 1, 1, 1, 0, []⟩ : RunState).fail_count
      ≤ (⟨0, 1, 1, 1, 0, []⟩ : RunState).total :=
  C5_tally_discipline.1 envExn 1004 10 ["a"] 1 ⟨0, 1, 1, 1, 0, []⟩ (by decide)

/-- Claim C6, counterexample: normalization removes the *interior* `@` as
well — `"a@b"` has no surrounding whitespace and no leading marker, so by
the claim it should be unchanged, but the code's `.replace('@', '')`
yields `"ab"`. -/
theorem C6_counterexample :
    normalize_username "a@b" = "ab" ∧ ¬ normalize_username "a@b" = "a@b" :=
  ⟨by decide, by decide⟩

/-- Claim C6 (amended): normalization trims surrounding whitespace and
removes *every* occurrence of `@` (leading or interior), leaving the
other characters unchanged; a handle that normalizes to empty is skipped
with no Resolver or Submitter call and no state change at all. -/
theorem C6_normalization :
    (∀ s, '@' ∉ (normalize_username s).data)
    ∧ normalize_username "  @alice  " = "alice"
    ∧ normalize_username "a@b" = "ab"
    ∧ (∀ env reason delay total i u st, normalize_username u = "" →
        processOne env reason delay total i u st = Except.ok st) := by
  refine ⟨?_, by decide, by decide, ?_⟩
  · intro s hmem
    simp only [normalize_username] at hmem
    rcases List.mem_filter.mp hmem with ⟨-, hat⟩
    simp at hat
  · intro env reason delay total i u st hu
    exact processOne_skip env reason delay total i u st hu

/-- Witness for C6: a whitespace-and-marker-only entry is a no-op. -/
theorem C6_witness :
    processOne envOk 1004 10 3 1 " @ " (initState 3) = Except.ok (initState 3) :=
  C6_normalization.2.2.2 envOk 1004 10 3 1 " @ " (initState 3) (by decide)

/-- Claim C7: the reason-code prompt returns the default category's code
1004 ("Other") on an empty answer, re-prompts (consumes the answer and
asks again) on the out-of-range answer "9", and only ever returns one of
the eight enumerated codes 1001-1008. -/
theorem C7_reason_menu :
    (∀ rest, get_report_reason ("" :: rest) = some 1004)
    ∧ (∀ rest, get_report_reason ("9" :: rest) = get_report_reason rest)
    ∧ (∀ answers code, get_report_reason answers = some code →
        code ∈ ([1001, 1002, 1003, 1004, 1005, 1006, 1007, 1008] : List Int)) := by
  refine ⟨fun rest => rfl, fun rest => rfl, ?_⟩
  intro answers
  induction answers with
  | nil =>
    intro code h
    exact absurd h (by simp [get_report_reason])
  | cons a rest ih =>
    intro code h
    simp only [get_report_reason] at h
    rcases hp : parseReasonChoice a with _ | c
    · rw [hp] at h
      exact ih code h
    · rw [hp] at h
      simp only [] at h
      cases h
      have hm := dictGet_mem reasons
        (if pyStrip a = "" then "4" else pyStrip a) code hp
      simpa [reasons] using hm

/-- Witness for C7: a run answering "4" yields 1004, an enumerated code. -/
theorem C7_witness :
    (1004 : Int) ∈ ([1001, 1002, 1003, 1004, 1005, 1006, 1007, 1008] : List Int) :=
  C7_reason_menu.2.2 ["4"] 1004 rfl

/-- Claim C8: exit code 0 on normal completion and on a non-affirmative
confirmation answer; exit code 1 on a missing/malformed credential file,
a missing handle file or an empty handle list, and a failed liveness
check — and in the liveness-failure case `process_accounts` (hence any
resolve or submit request) is never invoked, which the `none` in the
`reported` component records. -/
theorem C8_exit_codes :
    (∀ w c, load_cookies w.cookieFile = Except.error c →
        main_fn w = ⟨some c, none⟩ ∧ c = 1)
    ∧ (∀ w fs, load_cookies w.cookieFile = Except.ok fs →
        check_cookies_valid w.livenessResp = false →
        main_fn w = ⟨some 1, none⟩)
    ∧ (∀ w fs c, load_cookies w.cookieFile = Except.ok fs →
        check_cookies_valid w.livenessResp = true →
        load_usernames w.userFile = Except.error c →
        main_fn w = ⟨some c, none⟩ ∧ c = 1)
    ∧ (∀ w fs, load_cookies w.cookieFile = Except.ok fs →
        check_cookies_valid w.livenessResp = true →
        load_usernames w.userFile = Except.ok [] →
        main_fn w = ⟨some 1, none⟩)
    ∧ (∀ w fs usernames reason, load_cookies w.cookieFile = Except.ok fs →
        check_cookies_valid w.livenessResp = true →
        load_usernames w.userFile = Except.ok usernames → ¬ usernames = [] →
        get_report_reason w.reasonInputs = some reason →
        ¬ pyLower w.confirmInput = "y" →
        main_fn w = ⟨some 0, none⟩)
    ∧ (∀ w fs usernames reason st, load_cookies w.cookieFile = Except.ok fs →
        check_cookies_valid w.livenessResp = true →
        load_usernames w.userFile = Except.ok usernames → ¬ usernames = [] →
        get_report_reason w.reasonInputs = some reason →
        pyLower w.confirmInput = "y" →
        process_accounts ⟨w.lookup, w.report⟩ reason (readDelay w.delayInput)
            usernames = Except.ok st →
        main_fn w = ⟨some 0, some (Except.ok st)⟩) := by
  refine ⟨?_, ?_, ?_, ?_, ?_, ?_⟩
  · intro w c h
    exact ⟨by simp [main_fn, h], load_cookies_error_code w.cookieFile c h⟩
  · intro w fs h1 h2
    simp [main_fn, h1, h2]
  · intro w fs c h1 h2 h3
    exact ⟨by simp [main_fn, h1, h2, h3], load_usernames_error_code w.userFile c h3⟩
  · intro w fs h1 h2 h3
    simp [main_fn, h1, h2, h3]
  · intro w fs usernames reason h1 h2 h3 h4 h5 h6
    simp [main_fn, h1, h2, h3, h4, h5, h6]
  · intro w fs usernames reason st h1 h2 h3 h4 h5 h6 h7
    simp [main_fn, h1, h2, h3, h4, h5, h6, h7]

/-- Witness for C8: liveness failure exits 1 with no pipeline run;
cancelled confirmation exits 0; a fully successful run exits 0. -/
theorem C8_witness :
    main_fn { wBase with livenessResp := HttpResult.exn } = ⟨some 1, none⟩
    ∧ main_fn { wBase with confirmInput := "n" } = ⟨some 0, none⟩
    ∧ main_fn { wBase with delayInput := "10" }
        = ⟨some 0, some (Except.ok ⟨2, 0, 2, 2, 2, [10]⟩)⟩ := by
  refine ⟨?_, ?_, ?_⟩
  · exact C8_exit_codes.2.1 _ [] rfl rfl
  · exact C8_exit_codes.2.2.2.2.1 _ [] ["a", "b"] 1004 rfl rfl rfl
      (by decide) rfl (by decide)
  · exact C8_exit_codes.2.2.2.2.2 _ [] ["a", "b"] 1004 ⟨2, 0, 2, 2, 2, [10]⟩
      rfl rfl rfl (by decide) rfl (by decide) (by decide)

/-- Claim C9 (implicit): after a successful startup, the run proceeds to
reporting iff the lowercased confirmation answer is exactly "y"; every
other answer — "yes" included — exits 0 without invoking the pipeline. -/
theorem C9_confirmation_gate :
    ∀ w fs usernames reason,
      load_cookies w.cookieFile = Except.ok fs →
      check_cookies_valid w.livenessResp = true →
      load_usernames w.userFile = Except.ok usernames → ¬ usernames = [] →
      get_report_reason w.reasonInputs = some reason →
      (((main_fn w).reported.isSome = true) ↔ pyLower w.confirmInput = "y")
      ∧ (¬ pyLower w.confirmInput = "y" → main_fn w = ⟨some 0, none⟩) := by
  intro w fs usernames reason h1 h2 h3 h4 h5
  by_cases hconf : pyLower w.confirmInput = "y"
  · constructor
    · rcases hp : process_accounts ⟨w.lookup, w.report⟩ reason
        (readDelay w.delayInput) usernames with e | st <;>
        simp [main_fn, h1, h2, h3, h4, h5, hconf, hp]
    · intro hx
      exact absurd hconf hx
  · constructor
    · simp [main_fn, h1, h2, h3, h4, h5, hconf]
    · intro hx
      simp [main_fn, h1, h2, h3, h4, h5, hconf]

/-- Witness for C9: "Y" lowercases to "y" and proceeds; "yes" aborts
with exit code 0. -/
theorem C9_witness :
    (((main_fn { wBase with confirmInput := "Y" }).reported.isSome = true)
      ↔ pyLower "Y" = "y")
    ∧ main_fn { wBase with confirmInput := "yes" } = ⟨some 0, none⟩ := by
  constructor
  · exact (C9_confirmation_gate { wBase with confirmInput := "Y" } [] ["a", "b"]
      1004 rfl rfl rfl (by decide) rfl).1
  · exact (C9_confirmation_gate { wBase with confirmInput := "yes" } [] ["a", "b"]
      1004 rfl rfl rfl (by decide) rfl).2 (by decide)

/-- Claim C10 (implicit): every string the float parser accepts is passed
through the delay prompt unvalidated — negative values included — so the
answer "-5" makes every inter-handle wait receive `-5`, violating
`time.sleep`'s precondition `0 ≤ delay` mid-run (the recorded `sleeps`
list of the completed pipeline run under `wBase`, whose delay answer is
"-5", is `[-5]`). -/
theorem C10_negative_delay :
    (∀ s q, parseFloat? s = some q → readDelay s = q)
    ∧ readDelay "-5" = -5
    ∧ ¬ sleepPre (readDelay "-5")
    ∧ main_fn wBase = ⟨some 0, some (Except.ok ⟨2, 0, 2, 2, 2, [-5]⟩)⟩ := by
  refine ⟨?_, by decide, ?_, by decide⟩
  · intro s q h
    by_cases hs : s = ""
    · subst hs
      exact absurd h (by simp [parseFloat?, stripChars])
    · simp [readDelay, hs, h]
  · show ¬ (0 : Rat) ≤ readDelay "-5"
    decide

/-- Witness for C10: the parsed "-5" flows through `readDelay` intact. -/
theorem C10_witness : readDelay "-5" = -5 :=
  C10_negative_delay.1 "-5" (-5) (by decide)
